import Mathlib

/-!
Formal model (shallow embedding) of the brand-catalog scraping agent in
src/site_parsing_api/Agent_Node/main.py, together with proofs settling the
frozen claims about its specification.

Modelling conventions:
- a product row is an ordered field map (the per-product dictionaries built by
  the per-brand extractors); the exact field names written into a row are
  brand-supplied configuration, so rows are carried opaquely where a claim is
  about control flow (pagination, accumulation, error containment);
- machine-level concerns (pandas DataFrame internals, CSV quoting, the real
  HTTP transport) are abstracted: a DataFrame of rows is a Lean list, a fetch
  is a function from the request's varying index (page or offset) to the
  decoded response, and a raised-and-uncaught Python exception is an
  Except.error value;
- Python truthiness and str() conversions are modelled explicitly where a
  claim depends on them (empty containers are falsy; str applied to the
  Python None value yields the four-character string "None").
-/

/-- A normalized product row: an ordered mapping of field name to value,
as built by the per-brand extractors (`product_info` dictionaries). -/
abbrev Row := List (String × String)

/- ---------------------------------------------------------------------
   Shared normalization helpers (WebsiteParser.format_url, safe_strip)
   --------------------------------------------------------------------- -/

/-- The characters Python's str.strip() removes by default (ASCII range):
space, tab, newline, carriage return, vertical tab, form feed. -/
def isPySpace (c : Char) : Bool :=
  c = ' ' || c = '\t' || c = '\n' || c = '\r' || c = '\x0b' || c = '\x0c'

/-- Python str.strip(): drop leading and trailing whitespace characters. -/
def pyStrip (s : String) : String :=
  ⟨((s.data.dropWhile isPySpace).reverse.dropWhile isPySpace).reverse⟩

/-- The Python scalar values that can reach WebsiteParser.safe_strip:
a string, an integer, a boolean, or the None value. -/
inductive PyVal where
  | str (s : String)
  | int (n : Int)
  | bool (b : Bool)
  | pynone
deriving DecidableEq

/-- WebsiteParser.safe_strip (main.py:127-128):
`return value.strip() if isinstance(value, str) else value`. -/
def safe_strip : PyVal → PyVal
  | PyVal.str s => PyVal.str (pyStrip s)
  | v => v

/-- Python str.startswith on strings, as a prefix test on the character
sequences. -/
def pyStartsWith (s pre : String) : Bool :=
  pre.data.isPrefixOf s.data

/-- WebsiteParser.format_url (main.py:122-125):
`if url: return url if url.startswith('http') else 'https:' + url; return ""`.
The argument is the string drawn from the product JSON; an empty string is
falsy (as is the Python None value, which the string model folds into ""). -/
def format_url (url : String) : String :=
  if url ≠ "" then
    if pyStartsWith url "http" then url else "https:" ++ url
  else ""

/- ---------------------------------------------------------------------
   Fetcher retry policy (WebsiteParser.open_link, main.py:213-232)

   open_link mounts a urllib3 Retry(total=5, backoff_factor=0.5,
   status_forcelist=[429, 500, 502, 503, 504],
   allowed_methods=["HEAD", "GET", "OPTIONS"]) on the session and issues one
   GET.  The retry loop below embeds urllib3's semantics for this
   configuration (urllib3/util/retry.py): after each qualifying failure the
   total counter is decremented and MaxRetryError is raised exactly when the
   counter drops below zero, so total=5 admits the initial attempt plus five
   retries --- six attempts in all.  Responses are modelled by the status
   sequence the server returns on successive attempts (no Retry-After
   headers; transport errors consume the same total counter and are not
   modelled separately).
   --------------------------------------------------------------------- -/

/-- The response statuses that force a retry (status_forcelist). -/
def status_forcelist : List Nat := [429, 500, 502, 503, 504]

/-- The idempotent methods the policy may retry (allowed_methods). -/
def allowed_methods : List String := ["HEAD", "GET", "OPTIONS"]

/-- urllib3 Retry.is_retry for this configuration: the method must be in
allowed_methods and the status in status_forcelist. -/
def is_retry (method : String) (status : Nat) : Bool :=
  allowed_methods.contains method && status_forcelist.contains status

/-- The retry loop: `resp i` is the status answering the attempt with index
`i` (0-based); the first argument of the recursion is the remaining total
retry budget.  Returns (final status, number of attempts made) when a
response is delivered to the caller, or Option.none when retries are
exhausted (MaxRetryError).  A non-retryable status (e.g. 404) is delivered
immediately. -/
def retry_send (method : String) (resp : Nat → Nat) : Nat → Nat → Option (Nat × Nat)
  | 0, i =>
    let s := resp i
    if is_retry method s then Option.none else some (s, i + 1)
  | r + 1, i =>
    let s := resp i
    if is_retry method s then retry_send method resp r (i + 1) else some (s, i + 1)

/-- Number of HTTP attempts the retry loop performs from attempt index `i`
with the given remaining budget (counting the attempt that exhausts the
budget). -/
def retry_attempts (method : String) (resp : Nat → Nat) : Nat → Nat → Nat
  | 0, _ => 1
  | r + 1, i => if is_retry method (resp i) then 1 + retry_attempts method resp r (i + 1) else 1

/-- WebsiteParser.open_link: one GET through the retrying session, then
raise_for_status; any RequestException (retries exhausted, or a final error
status) yields the Python None return, modelled as Option.none.  The result
is the status of the successfully returned page. -/
def open_link (resp : Nat → Nat) : Option Nat :=
  match retry_send "GET" resp 5 0 with
  | some (s, _) => if s < 400 then some s else Option.none
  | Option.none => Option.none

theorem retry_attempts_le (method : String) (resp : Nat → Nat) :
    ∀ r i, retry_attempts method resp r i ≤ r + 1 := by
  intro r
  induction r with
  | zero => intro i; simp [retry_attempts]
  | succ r ih =>
    intro i
    simp only [retry_attempts]
    split
    · have := ih (i + 1); omega
    · omega

/- ---------------------------------------------------------------------
   Known-page-count pagination (GucciProductParser.fetch_data,
   main.py:251-322, and AlexanderMcqueenParser.fetch_data, main.py:440-502)

   Gucci: the page-0 response is fetched once to read
   json_data.get('numberOfPages', 1) (default 1 when the key is absent or
   the payload is empty/unparsable), then the loop
   `for page in range(total_pages)` fetches pages 0..total_pages-1 and
   extracts their items; an empty items list is logged and skipped
   (contributing no rows).  `pages p` is the decoded response for page
   index p, with its extracted rows. -/

/-- One decoded Gucci listing response: the declared numberOfPages field
(absent means the .get default 1 applies) and the rows extracted from
products.items. -/
structure GucciPage where
  numberOfPages : Option Nat
  items : List Row
deriving DecidableEq

/-- GucciProductParser.fetch_data pagination: returns the accumulated rows
together with the log of page indices fetched (the initial metadata fetch of
page 0, then the loop's pages in order). -/
def gucci_fetch_data (pages : Nat → GucciPage) : List Row × List Nat :=
  let total_pages := (pages 0).numberOfPages.getD 1
  (List.range total_pages).foldl
    (fun acc page => (acc.1 ++ (pages page).items, acc.2 ++ [page]))
    ([], [0])

/-- One decoded Alexander McQueen listing response: json_data['stats']
['nbPages'] and the rows extracted from json_data['products']. -/
structure McQueenPage where
  nbPages : Nat
  products : List Row
deriving DecidableEq

/-- AlexanderMcqueenParser.fetch_data pagination: total_pages is the declared
nbPages plus one, then the loop fetches pages 0..total_pages-1. -/
def mcqueen_fetch_data (pages : Nat → McQueenPage) : List Row × List Nat :=
  let total_pages := (pages 0).nbPages + 1
  (List.range total_pages).foldl
    (fun acc page => (acc.1 ++ (pages page).products, acc.2 ++ [page]))
    ([], [0])

theorem foldl_fetch_log (g : Nat → List Row) (l : List Nat) :
    ∀ (r : List Row) (log : List Nat),
      (l.foldl (fun acc page => (acc.1 ++ g page, acc.2 ++ [page])) (r, log)).2 = log ++ l := by
  induction l with
  | nil => intro r log; simp
  | cons x xs ih => intro r log; simp [List.foldl, ih]

/- ---------------------------------------------------------------------
   Dataset accumulation across locales and categories
   (process_categories of the brand parsers)

   GucciProductParser.process_categories (main.py:324-336) runs
   `for locale in locales: self.data = pd.DataFrame(); for category in
   categories: self.data = pd.concat([self.data, fetch_data(...)])`
   and then serializes self.data: the dataset is reset at the start of every
   locale.  SaintLaurentProductParser.process_categories (main.py:696-707)
   runs the same double loop without the per-locale reset, accumulating onto
   the self.data that starts empty in __init__.  `fetch c l` is the list of
   rows fetch_data returns for category c and locale l. -/

/-- GucciProductParser.process_categories: per-locale dataset reset; the
returned list is the self.data that reaches serialization and upload. -/
def gucci_process_categories (fetch : String → String → List Row)
    (categories locales : List String) : List Row :=
  locales.foldl
    (fun _data locale =>
      categories.foldl (fun data category => data ++ fetch category locale) [])
    []

/-- SaintLaurentProductParser.process_categories: no per-locale reset; rows
accumulate across every locale onto the initially empty self.data. -/
def saint_laurent_process_categories (fetch : String → String → List Row)
    (categories locales : List String) : List Row :=
  locales.foldl
    (fun data locale =>
      categories.foldl (fun data category => data ++ fetch category locale) data)
    []

theorem foldl_categories_append (fetch : String → String → List Row)
    (categories : List String) (locale : String) :
    ∀ d : List Row,
      categories.foldl (fun data category => data ++ fetch category locale) d
        = d ++ (categories.map (fun c => fetch c locale)).flatten := by
  induction categories with
  | nil => intro d; simp
  | cons c cs ih => intro d; simp [List.foldl, ih]

theorem foldl_last_locale (g : String → List Row) :
    ∀ (ls : List String) (l : String) (init : List Row),
      (ls ++ [l]).foldl (fun _ locale => g locale) init = g l := by
  intro ls
  induction ls with
  | nil => intro l init; simp
  | cons x xs ih => intro l init; simp [List.foldl, ih]

/- ---------------------------------------------------------------------
   Loewe offset pagination (LoeweProductParser.fetch_data, main.py:865-965)

   After the bearer-token extraction and a probe request (offset 0, limit 2)
   that yields total_products from the first hit's c_totalProducts, the code
   runs:

     while offset <= total_products:
         fetch(offset, limit); items = json_data.get('hits', [])
         if not items: log; continue        # offset is NOT incremented
         append extracted rows; offset += limit

   `pages o` is the list of rows extracted from the hits of the response at
   offset o.  The loop has no fuel in the source; the model adds a fuel
   argument, with Option.none meaning the loop did not finish within the
   given number of iterations. -/

/-- The Loewe while-loop over offsets.  Arguments after the response map and
limit / total_products: remaining fuel, current offset.  Returns the rows the
loop accumulates from the current offset on, or Option.none if the loop does
not exit within the fuel. -/
def loewe_fetch_loop (pages : Nat → List Row) (limit total_products : Nat) :
    Nat → Nat → Option (List Row)
  | 0, _ => Option.none
  | fuel + 1, offset =>
    if offset ≤ total_products then
      let items := pages offset
      if items.isEmpty then
        loewe_fetch_loop pages limit total_products fuel offset
      else
        match loewe_fetch_loop pages limit total_products fuel (offset + limit) with
        | some rest => some (items ++ rest)
        | Option.none => Option.none
    else some []

/- ---------------------------------------------------------------------
   Dolce & Gabbana (DolceGabbanaProductParser, main.py:709-827)

   fetch_products(category, info_dict):
     - get_bearer_token(); if None: log, return empty DataFrame;
     - loop: response = requests.get(...)   (plain session, no Retry mounted;
       a transport exception propagates out of fetch_products --- nothing in
       fetch_products or process_categories catches it);
       if status != 200: log, break; products = data.get('hits', []);
       if not products: break; extract rows; offset += limit;
       if offset >= data['total']: break.

   process_categories(categories, info_dicts):
     all_data = pd.DataFrame()            # local accumulator
     for info_dict in info_dicts:
         self.data = pd.DataFrame()       # instance dataset, reset only
         if categories: for category: all_data = concat(all_data, fetched)
         else: all_data = concat(all_data, fetch_products("", info_dict))
     serialize self.data; upload; self.count = len(self.data) - 1; send_output
   --------------------------------------------------------------------- -/

/-- One decoded response of the D&G product search endpoint: HTTP status,
rows extracted from 'hits', and the declared 'total'. -/
structure DGResponse where
  status : Nat
  hits : List Row
  total : Nat
deriving DecidableEq

/-- Outcome of one fetch_products call: a returned row list, an uncaught
Python exception escaping the call, or failure to exit the while-loop within
the model's fuel. -/
inductive DGResult where
  | rows (rs : List Row)
  | exn (msg : String)
  | hang
deriving DecidableEq

/-- The D&G while-loop, from the current offset: `responses o` is the result
of requests.get at offset o (Except.error = transport exception). -/
def dg_fetch_loop (responses : Nat → Except String DGResponse) (limit : Nat) :
    Nat → Nat → List Row → DGResult
  | 0, _, _ => DGResult.hang
  | fuel + 1, offset, acc =>
    match responses offset with
    | Except.error e => DGResult.exn e
    | Except.ok r =>
      if r.status ≠ 200 then DGResult.rows acc
      else if r.hits.isEmpty then DGResult.rows acc
      else if offset + limit ≥ r.total then DGResult.rows (acc ++ r.hits)
      else dg_fetch_loop responses limit fuel (offset + limit) (acc ++ r.hits)

/-- DolceGabbanaProductParser.fetch_products: bearer-token extraction result,
then the paging loop from offset 0. -/
def dg_fetch_products (bearer_token : Option String)
    (responses : Nat → Except String DGResponse) (limit fuel : Nat) : DGResult :=
  match bearer_token with
  | Option.none => DGResult.rows []
  | some _ => dg_fetch_loop responses limit fuel 0 []

/-- The locale descriptors D&G iterates over (info_dicts entries). -/
structure DGInfoDict where
  locale : String
  site_id : String
  limit : Nat
deriving DecidableEq

/-- The category loop inside one info_dict iteration, accumulating onto the
local all_data; an exception escaping fetch_products aborts the whole job. -/
def dg_cat_loop (fp : String → DGInfoDict → DGResult) (i : DGInfoDict) :
    List String → List Row → Option (Except String (List Row))
  | [], all_data => some (Except.ok all_data)
  | c :: cs, all_data =>
    match fp c i with
    | DGResult.rows rs => dg_cat_loop fp i cs (all_data ++ rs)
    | DGResult.exn e => some (Except.error e)
    | DGResult.hang => Option.none

/-- The info_dict loop of DolceGabbanaProductParser.process_categories,
carrying (all_data, self.data): self.data is reset to empty at the start of
each iteration and never appended to. -/
def dg_dict_loop (fp : String → DGInfoDict → DGResult) (categories : List String) :
    List DGInfoDict → List Row → List Row → Option (Except String (List Row × List Row))
  | [], all_data, self_data => some (Except.ok (all_data, self_data))
  | i :: is, all_data, _ =>
    let step : Option (Except String (List Row)) :=
      if categories.isEmpty then
        match fp "" i with
        | DGResult.rows rs => some (Except.ok (all_data ++ rs))
        | DGResult.exn e => some (Except.error e)
        | DGResult.hang => Option.none
      else dg_cat_loop fp i categories all_data
    match step with
    | some (Except.ok all_data2) => dg_dict_loop fp categories is all_data2 []
    | some (Except.error e) => some (Except.error e)
    | Option.none => Option.none

/-- What DolceGabbanaProductParser.process_categories publishes: the local
all_data accumulator (never serialized), the serialized-and-uploaded
self.data, and the count reported to send_output. -/
structure DGPublish where
  allData : List Row
  published : List Row
  count : Int
deriving DecidableEq

/-- DolceGabbanaProductParser.process_categories: runs the double loop, then
serializes self.data and reports count = len(self.data) - 1.  The outer
Option is the fuel/hang layer; the Except layer is an uncaught exception
aborting the job before anything is published. -/
def dg_process_categories (fp : String → DGInfoDict → DGResult)
    (categories : List String) (info_dicts : List DGInfoDict) :
    Option (Except String DGPublish) :=
  match dg_dict_loop fp categories info_dicts [] [] with
  | some (Except.ok (all_data, self_data)) =>
    some (Except.ok
      { allData := all_data
        published := self_data
        count := (self_data.length : Int) - 1 })
  | some (Except.error e) => some (Except.error e)
  | Option.none => Option.none

/- ---------------------------------------------------------------------
   Error containment in fetch_data and the publish tail of
   process_categories (GucciProductParser, main.py:251-336)

   The whole body of GucciProductParser.fetch_data sits inside try/except;
   any exception is logged and an empty DataFrame is returned, so its caller
   always receives a row list.  process_categories then unconditionally
   serializes self.data, uploads it, sets self.count = len(self.data) - 1 and
   calls send_output. -/

/-- A fetch-attempt abstraction for one (category, locale): Except.ok are the
extracted rows, Except.error is any exception raised inside fetch_data's try
block (transport failure after exhausted retries, JSON decode error, ...). -/
def gucci_fetch_safe (fetch : String → String → Except String (List Row))
    (category locale : String) : List Row :=
  match fetch category locale with
  | Except.ok rows => rows
  | Except.error _ => []

/-- The publish-relevant outcome of one Gucci job: the serialized rows, the
count handed to send_output, and whether send_output was reached. -/
structure PublishRecord where
  rows : List Row
  count : Int
  notified : Bool
deriving DecidableEq

/-- GucciProductParser.process_categories end to end: the double loop over
locales/categories with the per-locale reset, then the unconditional publish
tail (serialize, upload, count = len - 1, send_output). -/
def gucci_run (fetch : String → String → Except String (List Row))
    (categories locales : List String) : PublishRecord :=
  let data := gucci_process_categories (fun c l => gucci_fetch_safe fetch c l)
    categories locales
  { rows := data
    count := (data.length : Int) - 1
    notified := true }

/- ---------------------------------------------------------------------
   Output publishing (WebsiteParser.send_output, main.py:182-211, and
   upload_file_to_space, main.py:159-180)

   send_output: upload the log file (upload_file_to_space returns the public
   URL or Python None on failure); build params with str(job_id),
   str(upload_url), str(log_url), int(count); a try/except around the local
   file cleanup swallows any cleanup error; a second try/except posts
   {send_out_endpoint}/job_complete exactly once and swallows any
   RequestException --- there is no retry and no second post. -/

/-- The query parameters of the job_complete callback. -/
structure JobCompleteParams where
  job_id : String
  resultUrl : String
  logUrl : String
  count : Int
deriving DecidableEq

/-- Python str() applied to an optional string: the string itself, or the
literal four-character string "None" for the Python None value. -/
def py_str_of_option : Option String → String
  | some s => s
  | Option.none => "None"

/-- The observable effects of send_output, in order. -/
inductive PubEffect where
  | uploadLog
  | removeOutputFile
  | removeLogFile
  | postJobComplete (params : JobCompleteParams) (succeeded : Bool)
deriving DecidableEq

/-- Is this effect the completion-notification POST? -/
def is_post_effect : PubEffect → Bool
  | PubEffect.postJobComplete _ _ => true
  | _ => false

/-- WebsiteParser.send_output.  upload_url / log_url are the S3 URLs (Python
None when the corresponding upload failed); cleanup_raises says whether the
os.remove block raises (caught); post_succeeded says whether the single POST
gets a 2xx (a failure is caught and only logged). -/
def send_output (job_id : String) (upload_url log_url : Option String)
    (count : Int) (cleanup_raises post_succeeded : Bool) : List PubEffect :=
  let params : JobCompleteParams :=
    { job_id := job_id
      resultUrl := py_str_of_option upload_url
      logUrl := py_str_of_option log_url
      count := count }
  let cleanup : List PubEffect :=
    if cleanup_raises then [] else [PubEffect.removeOutputFile, PubEffect.removeLogFile]
  PubEffect.uploadLog :: cleanup ++ [PubEffect.postJobComplete params post_succeeded]

/- ---------------------------------------------------------------------
   Strategy resolution (run_parser, main.py:54-86)

   run_parser fetches the settings JSON (None on failure); returns
   immediately when `not settings or brand_id not in settings`; otherwise
   looks brand_id up in the literal parsers dict and, when absent, only logs
   "No parser defined" --- in all three bail-out paths no parser object is
   built, so no fetch happens, no artifact is produced and no completion
   notification is sent. -/

/-- The per-brand settings the agent reads (Categories, Locales, Base_URL). -/
structure BrandSettings where
  categories : List String
  locales : List String
  base_url : String
deriving DecidableEq

/-- The observable effects of running a brand strategy. -/
inductive JobEffect where
  | fetch (url : String)
  | uploadArtifact
  | notify
deriving DecidableEq

/-- The brand ids of the parsers dict in run_parser (main.py:67-78). -/
def parser_brand_ids : List String :=
  ["478", "229", "26", "363", "314", "310", "157", "500", "125", "110"]

/-- run_parser: settings is the fetched settings map (Option.none = fetch
failed; an empty map is falsy), run_brand stands for constructing the parser
and running process_categories. -/
def run_parser_effects (settings : Option (List (String × BrandSettings)))
    (brand_id : String) (run_brand : String → BrandSettings → List JobEffect) :
    List JobEffect :=
  match settings with
  | Option.none => []
  | some s =>
    if s.isEmpty then []
    else
      match s.lookup brand_id with
      | Option.none => []
      | some bs =>
        if parser_brand_ids.contains brand_id then run_brand brand_id bs
        else []

/-- Does the fetched settings map contain this brand (Python:
`settings and brand_id in settings`)? -/
def settings_has (settings : Option (List (String × BrandSettings)))
    (brand_id : String) : Bool :=
  match settings with
  | Option.none => false
  | some s => !s.isEmpty && (s.lookup brand_id).isSome

/- ---------------------------------------------------------------------
   Claim theorems
   --------------------------------------------------------------------- -/

theorem string_append_data (a b : String) : (a ++ b).data = a.data ++ b.data := by
  cases a
  cases b
  rfl

theorem pyStartsWith_slash_slash (u : String) (h : pyStartsWith u "//" = true) :
    ∃ rest : List Char, u.data = '/' :: '/' :: rest := by
  have hp : "//".data <+: u.data := List.isPrefixOf_iff_prefix.mp h
  obtain ⟨t, ht⟩ := hp
  exact ⟨t, ht.symm⟩

theorem format_url_protocol_relative (u : String) (h : pyStartsWith u "//" = true) :
    format_url u = "https:" ++ u ∧ pyStartsWith (format_url u) "https://" = true := by
  obtain ⟨rest, hdata⟩ := pyStartsWith_slash_slash u h
  have hne : u ≠ "" := by
    intro he
    rw [he] at hdata
    exact List.noConfusion hdata
  have hnothttp : pyStartsWith u "http" = false := by
    unfold pyStartsWith
    rw [show ("http" : String).data = ['h', 't', 't', 'p'] from rfl, hdata]
    rfl
  have hfu : format_url u = "https:" ++ u := by
    unfold format_url
    rw [if_pos hne, hnothttp]
    rfl
  refine ⟨hfu, ?_⟩
  rw [hfu]
  unfold pyStartsWith
  rw [string_append_data, hdata]
  rw [show ("https://" : String).data = ['h', 't', 't', 'p', 's', ':', '/', '/'] from rfl]
  rw [show ("https:" : String).data = ['h', 't', 't', 'p', 's', ':'] from rfl]
  simp [List.isPrefixOf]

/-- Claim C8: the shared normalization helpers.  safe_strip strips
leading/trailing whitespace from a string value and returns any non-string
value unchanged; format_url completes a protocol-relative URL (starting
with "//") to an https:// URL by prefixing "https:", leaves URLs starting
with "http" unchanged, and maps the falsy (empty) input to the empty
string. -/
theorem C8_normalizers :
    (∀ s : String, safe_strip (PyVal.str s) = PyVal.str (pyStrip s))
    ∧ (∀ n : Int, safe_strip (PyVal.int n) = PyVal.int n)
    ∧ (∀ b : Bool, safe_strip (PyVal.bool b) = PyVal.bool b)
    ∧ safe_strip PyVal.pynone = PyVal.pynone
    ∧ pyStrip "  product name \t\n" = "product name"
    ∧ (∀ u : String, pyStartsWith u "//" = true →
        format_url u = "https:" ++ u ∧ pyStartsWith (format_url u) "https://" = true)
    ∧ (∀ u : String, pyStartsWith u "http" = true → format_url u = u)
    ∧ format_url "" = "" := by
  refine ⟨fun s => rfl, fun n => rfl, fun b => rfl, rfl, by decide,
    format_url_protocol_relative, ?_, rfl⟩
  intro u hu
  have hne : u ≠ "" := by
    intro he
    rw [he] at hu
    exact Bool.noConfusion hu
  unfold format_url
  rw [if_pos hne, hu]
  rfl

/-- Witness for C8: the normalization helpers evaluated at concrete inputs,
each hypothesis of C8_normalizers discharged there. -/
theorem C8_witness :
    pyStartsWith "//img.example.com/a.jpg" "//" = true
    ∧ format_url "//img.example.com/a.jpg" = "https://img.example.com/a.jpg"
    ∧ pyStartsWith "http://x" "http" = true
    ∧ format_url "http://x" = "http://x" :=
  ⟨by decide,
   (C8_normalizers.2.2.2.2.2.1 "//img.example.com/a.jpg" (by decide)).1,
   by decide,
   C8_normalizers.2.2.2.2.2.2.1 "http://x" (by decide)⟩

/-- Claim C4 counterexample: a GET answered 503 on each of its first five
attempts and 200 thereafter does NOT exhaust retries --- under
Retry(total=5) the policy makes a sixth attempt and the call succeeds with
status 200 on attempt number 6, contradicting both "at most 5 attempts" and
"one answered 503 five times exhausts retries and fails". -/
theorem C4_counterexample :
    retry_send "GET" (fun i => if i < 5 then 503 else 200) 5 0 = some (200, 6) := by
  decide

/-- Claim C4, amended: the retry policy makes at most 6 attempts (the
initial attempt plus total=5 retries); a non-retryable status such as 404 is
delivered on the first attempt without any retry; a non-idempotent method
(e.g. POST) is never retried whatever the status; a call answered 503 four
times then 200 succeeds on the 5th attempt; a call answered 503 on six
consecutive attempts exhausts retries and fails. -/
theorem C4_retry_policy :
    (∀ (resp : Nat → Nat) (i : Nat), retry_attempts "GET" resp 5 i ≤ 6)
    ∧ (∀ resp : Nat → Nat,
        retry_send "GET" (fun i => if i = 0 then 404 else resp i) 5 0 = some (404, 1))
    ∧ (∀ (resp : Nat → Nat) (r i : Nat), retry_send "POST" resp r i = some (resp i, i + 1))
    ∧ retry_send "GET" (fun i => if i < 4 then 503 else 200) 5 0 = some (200, 5)
    ∧ retry_send "GET" (fun _ => 503) 5 0 = Option.none := by
  refine ⟨fun resp i => retry_attempts_le "GET" resp 5 i, fun resp => rfl, ?_, by decide, by decide⟩
  intro resp r i
  have hm : is_retry "POST" (resp i) = false := by
    unfold is_retry
    rw [show allowed_methods.contains "POST" = false from by decide]
    rfl
  cases r <;> simp [retry_send, hm]

/-- Claim C1 counterexample: with two locales and one category, the row
extracted for the earlier locale "us" is discarded by Gucci's per-locale
dataset reset --- the dataset handed to the publisher contains only the
later locale's row, so the dataset does not contain every extracted row. -/
theorem C1_counterexample :
    (fun c l : String => [[("category", c), ("locale", l)]]) "bags" "us"
        = [[("category", "bags"), ("locale", "us")]]
    ∧ [("category", "bags"), ("locale", "us")]
        ∉ gucci_process_categories (fun c l => [[("category", c), ("locale", l)]])
            ["bags"] ["us", "uk"]
    ∧ gucci_process_categories (fun c l => [[("category", c), ("locale", l)]])
        ["bags"] ["us", "uk"]
        = [[("category", "bags"), ("locale", "uk")]] := by
  decide

theorem saint_laurent_foldl (fetch : String → String → List Row) (cats : List String) :
    ∀ (locs : List String) (d : List Row),
      locs.foldl
        (fun data locale =>
          cats.foldl (fun data category => data ++ fetch category locale) data)
        d
        = d ++ (locs.map (fun l => (cats.map (fun c => fetch c l)).flatten)).flatten := by
  intro locs
  induction locs with
  | nil => intro d; simp
  | cons x xs ih =>
    intro d
    simp only [List.foldl, List.map, List.flatten]
    rw [foldl_categories_append, ih, List.append_assoc]

/-- Claim C1, amended: SaintLaurentProductParser.process_categories appends
the rows of every (locale, category) pair in processing order and never
discards earlier locales; GucciProductParser.process_categories resets the
dataset at the start of each locale, so the dataset passed to the publisher
is exactly the final locale's rows in category order (and empty when there
are no locales). -/
theorem C1_accumulation :
    (∀ (fetch : String → String → List Row) (cats locs : List String),
      saint_laurent_process_categories fetch cats locs
        = (locs.map (fun l => (cats.map (fun c => fetch c l)).flatten)).flatten)
    ∧ (∀ (fetch : String → String → List Row) (cats ls : List String) (l : String),
      gucci_process_categories fetch cats (ls ++ [l])
        = (cats.map (fun c => fetch c l)).flatten)
    ∧ (∀ (fetch : String → String → List Row) (cats : List String),
      gucci_process_categories fetch cats [] = []) := by
  refine ⟨?_, ?_, fun fetch cats => rfl⟩
  · intro fetch cats locs
    unfold saint_laurent_process_categories
    rw [saint_laurent_foldl]
    simp
  · intro fetch cats ls l
    unfold gucci_process_categories
    rw [foldl_last_locale (fun locale =>
      cats.foldl (fun data category => data ++ fetch category locale) []) ls l]
    rw [foldl_categories_append]
    simp

/-- Claim C2 counterexample: a Gucci category whose first response declares
numberOfPages = 2 triggers three fetch invocations, with page-index sequence
[0, 0, 1] (the page-0 metadata fetch plus the loop over pages 0 and 1), not
exactly 2 invocations of pages 0..1. -/
theorem C2_counterexample :
    ((fun _ : Nat => GucciPage.mk (some 2) []) 0).numberOfPages = some 2
    ∧ (gucci_fetch_data (fun _ : Nat => GucciPage.mk (some 2) [])).2 = [0, 0, 1]
    ∧ (gucci_fetch_data (fun _ : Nat => GucciPage.mk (some 2) [])).2 ≠ [0, 1] := by
  decide

/-- Claim C2, amended: when the first response declares total_pages = N, the
fetcher is invoked N + 1 times for that category/locale: an initial page-0
request to read the declared count, then the loop's requests for page
indices 0 through N-1 in increasing order (for Alexander McQueen, N is the
declared nbPages plus one, hence nbPages + 2 invocations in all). -/
theorem C2_fetch_plan :
    (∀ pages : Nat → GucciPage,
      (gucci_fetch_data pages).2 = 0 :: List.range ((pages 0).numberOfPages.getD 1)
      ∧ ((gucci_fetch_data pages).2).length = (pages 0).numberOfPages.getD 1 + 1)
    ∧ (∀ pages : Nat → McQueenPage,
      (mcqueen_fetch_data pages).2 = 0 :: List.range ((pages 0).nbPages + 1)
      ∧ ((mcqueen_fetch_data pages).2).length = (pages 0).nbPages + 2) := by
  constructor
  · intro pages
    have hlog : (gucci_fetch_data pages).2
        = [0] ++ List.range ((pages 0).numberOfPages.getD 1) := by
      unfold gucci_fetch_data
      rw [foldl_fetch_log (fun page => (pages page).items)]
    constructor
    · rw [hlog]; rfl
    · rw [hlog]; simp
  · intro pages
    have hlog : (mcqueen_fetch_data pages).2
        = [0] ++ List.range ((pages 0).nbPages + 1) := by
      unfold mcqueen_fetch_data
      rw [foldl_fetch_log (fun page => (pages page).products)]
    constructor
    · rw [hlog]; rfl
    · rw [hlog]; simp

/-- Claim C3 is violated by the code (code_bug): in
LoeweProductParser.fetch_data, when a response within the offset range
returns an empty hits list, the loop body executes `continue` without
incrementing the offset, so the same offset is fetched forever and the
pagination loop never terminates.  Formally: for the input in which every
response has empty hits and the probe reported total_products = 4, the loop
yields no result for ANY amount of fuel. -/
theorem C3_loewe_divergence :
    ∀ (fuel limit : Nat), loewe_fetch_loop (fun _ => []) limit 4 fuel 0 = Option.none := by
  intro fuel limit
  induction fuel with
  | zero => rfl
  | succ n ih => simp [loewe_fetch_loop, ih]

/-- Claim C5 counterexample: in DolceGabbanaProductParser, nothing catches a
transport exception raised by requests.get inside fetch_products, so a
transient fetch failure on the first category aborts the whole job --- the
sibling category "shoes" is never processed and the publisher never runs
(the job ends in the propagated error, not in a publish record). -/
theorem C5_counterexample :
    dg_process_categories
      (fun c i =>
        dg_fetch_products (some "tok")
          (fun _ =>
            if c = "bags" then Except.error "connection reset"
            else Except.ok (DGResponse.mk 200 [] 0))
          i.limit 8)
      ["bags", "shoes"] [DGInfoDict.mk "en-us" "dg-us" 24]
      = some (Except.error "connection reset") := by
  rfl

/-- Claim C5, amended: for parsers whose fetch routine wraps its whole body
in try/except (Gucci and the other fetch_data-style parsers), any failure of
one (category, locale) fetch --- transient error after exhausted retries
included --- yields an empty row set for that pair and changes nothing else:
the run is identical to one where that pair simply returned no rows, and the
publisher still runs.  A missing bearer token in DolceGabbana's
fetch_products likewise returns an empty row set without raising.  (An
uncaught transport exception in DolceGabbana's paging loop, by contrast,
aborts the job: see the counterexample.) -/
theorem C5_containment :
    (∀ (fetch : String → String → Except String (List Row))
        (cats locs : List String) (c0 l0 e : String),
      gucci_run (fun c l => if c = c0 ∧ l = l0 then Except.error e else fetch c l) cats locs
        = gucci_run (fun c l => if c = c0 ∧ l = l0 then Except.ok [] else fetch c l) cats locs)
    ∧ (∀ (responses : Nat → Except String DGResponse) (limit fuel : Nat),
      dg_fetch_products Option.none responses limit fuel = DGResult.rows [])
    ∧ (∀ (fetch : String → String → Except String (List Row)) (cats locs : List String),
      (gucci_run fetch cats locs).notified = true) := by
  refine ⟨?_, fun responses limit fuel => rfl, fun fetch cats locs => rfl⟩
  intro fetch cats locs c0 l0 e
  unfold gucci_run
  have hfe :
      (fun c l => gucci_fetch_safe
        (fun c l => if c = c0 ∧ l = l0 then Except.error e else fetch c l) c l)
      = (fun c l => gucci_fetch_safe
        (fun c l => if c = c0 ∧ l = l0 then Except.ok [] else fetch c l) c l) := by
    funext c l
    by_cases h : c = c0 ∧ l = l0 <;> simp [gucci_fetch_safe, h]
  rw [hfe]

/-- Claim C6: the count reported in the completion notification is
len(dataset) - 1 --- the job_complete POST carries exactly the serialized
dataset's length minus one, and a run whose dataset has 6 rows reports
count 5. -/
theorem C6_count_convention :
    (∀ (fetch : String → String → Except String (List Row)) (cats locs : List String)
        (job_id : String) (u l : Option String) (cr ok : Bool),
      (send_output job_id u l (gucci_run fetch cats locs).count cr ok).filter is_post_effect
        = [PubEffect.postJobComplete
            { job_id := job_id
              resultUrl := py_str_of_option u
              logUrl := py_str_of_option l
              count := ((gucci_run fetch cats locs).rows.length : Int) - 1 } ok])
    ∧ (gucci_run
        (fun _ _ => Except.ok
          [[("productCode", "p1")], [("productCode", "p2")], [("productCode", "p3")],
           [("productCode", "p4")], [("productCode", "p5")], [("productCode", "p6")]])
        ["bags"] ["en-US"]).count = 5 := by
  constructor
  · intro fetch cats locs job_id u l cr ok
    cases cr <;> simp [send_output, gucci_run, is_post_effect]
  · decide

/-- Claim C7: a job whose brand_id is not in the parsers registry (e.g.
"999") or absent from the fetched settings terminates before any work: the
background task produces zero fetch effects, no artifact upload and no
completion notification. -/
theorem C7_unknown_brand (settings : Option (List (String × BrandSettings)))
    (brand_id : String) (run_brand : String → BrandSettings → List JobEffect)
    (h : parser_brand_ids.contains brand_id = false
        ∨ settings_has settings brand_id = false) :
    run_parser_effects settings brand_id run_brand = []
    ∧ (run_parser_effects settings brand_id run_brand).countP
        (fun eff => match eff with | JobEffect.fetch _ => true | _ => false) = 0
    ∧ JobEffect.uploadArtifact ∉ run_parser_effects settings brand_id run_brand
    ∧ JobEffect.notify ∉ run_parser_effects settings brand_id run_brand := by
  have main : run_parser_effects settings brand_id run_brand = [] := by
    cases settings with
    | none => rfl
    | some s =>
      simp only [run_parser_effects]
      by_cases hemp : s.isEmpty
      · rw [if_pos hemp]
      · rw [if_neg hemp]
        cases hl : s.lookup brand_id with
        | none => rfl
        | some bs =>
          have hc : parser_brand_ids.contains brand_id = false := by
            cases h with
            | inl h => exact h
            | inr h =>
              exfalso
              simp only [settings_has] at h
              rw [hl] at h
              simp [hemp] at h
          have hfalse : ¬ (parser_brand_ids.contains brand_id = true) := by
            rw [hc]
            simp
          show (if parser_brand_ids.contains brand_id = true
              then run_brand brand_id bs else []) = []
          rw [if_neg hfalse]
  rw [main]
  simp

/-- Witness for C7: brand_id "999" against settings that contain only brand
"229"; the hypothesis of C7_unknown_brand is discharged at this input and
the run produces no fetch, no artifact upload and no notification. -/
theorem C7_witness :
    parser_brand_ids.contains "999" = false
    ∧ (run_parser_effects
        (some [("229", { categories := ["bags"], locales := ["en-US"],
                         base_url := "https://www.gucci.com" })])
        "999"
        (fun _ bs => [JobEffect.fetch bs.base_url, JobEffect.uploadArtifact,
                      JobEffect.notify]) = []
      ∧ (run_parser_effects
          (some [("229", { categories := ["bags"], locales := ["en-US"],
                           base_url := "https://www.gucci.com" })])
          "999"
          (fun _ bs => [JobEffect.fetch bs.base_url, JobEffect.uploadArtifact,
                        JobEffect.notify])).countP
          (fun eff => match eff with | JobEffect.fetch _ => true | _ => false) = 0
      ∧ JobEffect.uploadArtifact ∉ run_parser_effects
          (some [("229", { categories := ["bags"], locales := ["en-US"],
                           base_url := "https://www.gucci.com" })])
          "999"
          (fun _ bs => [JobEffect.fetch bs.base_url, JobEffect.uploadArtifact,
                        JobEffect.notify])
      ∧ JobEffect.notify ∉ run_parser_effects
          (some [("229", { categories := ["bags"], locales := ["en-US"],
                           base_url := "https://www.gucci.com" })])
          "999"
          (fun _ bs => [JobEffect.fetch bs.base_url, JobEffect.uploadArtifact,
                        JobEffect.notify])) :=
  ⟨by decide, C7_unknown_brand _ _ _ (Or.inl (by decide))⟩

theorem dg_cat_loop_pure (fp : String → DGInfoDict → List Row) (i : DGInfoDict) :
    ∀ (cs : List String) (acc : List Row),
      dg_cat_loop (fun c i => DGResult.rows (fp c i)) i cs acc
        = some (Except.ok (acc ++ (cs.map (fun c => fp c i)).flatten)) := by
  intro cs
  induction cs with
  | nil => intro acc; simp [dg_cat_loop]
  | cons c cs ih => intro acc; simp [dg_cat_loop, ih]

theorem dg_dict_loop_pure (fp : String → DGInfoDict → List Row) (cats : List String) :
    ∀ (infos : List DGInfoDict) (acc sd : List Row),
      dg_dict_loop (fun c i => DGResult.rows (fp c i)) cats infos acc sd
        = some (Except.ok
            (acc ++ (infos.map (fun i =>
                if cats.isEmpty then fp "" i
                else (cats.map (fun c => fp c i)).flatten)).flatten,
             if infos.isEmpty then sd else [])) := by
  intro infos
  induction infos with
  | nil => intro acc sd; simp [dg_dict_loop]
  | cons i is ih =>
    intro acc sd
    simp only [dg_dict_loop]
    by_cases hc : cats.isEmpty
    · simp [hc, ih, List.append_assoc]
    · simp [hc, dg_cat_loop_pure, ih, List.append_assoc]

/-- Claim C9: DolceGabbanaProductParser.process_categories accumulates every
fetched row into the local all_data, but serializes and reports the instance
dataset self.data, which is only ever reset --- so whatever the fetches
return, the published row set is empty and the reported count is -1. -/
theorem C9_dg_publishes_empty :
    ∀ (fp : String → DGInfoDict → List Row) (cats : List String)
      (infos : List DGInfoDict),
      dg_process_categories (fun c i => DGResult.rows (fp c i)) cats infos
        = some (Except.ok
            { allData := (infos.map (fun i =>
                if cats.isEmpty then fp "" i
                else (cats.map (fun c => fp c i)).flatten)).flatten
              published := []
              count := -1 }) := by
  intro fp cats infos
  unfold dg_process_categories
  rw [dg_dict_loop_pure]
  simp

/-- Claim C10: send_output attempts exactly one completion-notification POST
on every execution that reaches it --- also when the artifact upload failed
(upload_url is the Python None), when the log upload failed, and when the
cleanup step raised --- and because the params are built with str(), a
failed upload makes the resultUrl (or logUrl) parameter the literal
four-character string "None". -/
theorem C10_single_notification :
    (∀ (job_id : String) (u l : Option String) (count : Int) (cr ok : Bool),
      (send_output job_id u l count cr ok).filter is_post_effect
        = [PubEffect.postJobComplete
            { job_id := job_id
              resultUrl := py_str_of_option u
              logUrl := py_str_of_option l
              count := count } ok]
      ∧ ((send_output job_id u l count cr ok).filter is_post_effect).length = 1)
    ∧ py_str_of_option Option.none = "None" := by
  refine ⟨?_, rfl⟩
  intro job_id u l count cr ok
  cases cr <;> simp [send_output, is_post_effect]
